import Mathlib

/-!
# Verification of the movie-backend request handlers

Shallow embedding of the Express backend in `app.js` (latest revision) of
the `ctj_fase3_backend` repository. Each route handler is modelled as a
pure function from the request fields, the session state, and the outcome
of the remote calls (Supabase database/auth, Google Sheets) to the HTTP
response, the resulting database state (for the watched-mark table), and
the list of remote client calls performed.

External services are opaque: their outcomes enter as parameters
(`Except String _` for calls that can fail with a provider error detail,
the table contents as lists). JavaScript truthiness of required fields is
modelled explicitly (`none`, `some ""` and `some 0` are falsy).
-/

/-- A row of the `assistido` (watched-mark) table: `id` is the primary key
assigned by the database, `filme_id` the movie, `user_id` the user
(`none` models a JavaScript `undefined` user identifier). -/
structure Row where
  id : Nat
  filme_id : Nat
  user_id : Option String
deriving DecidableEq, Repr

/-- A row of the `filmes` table (only the fields the handlers look at). -/
structure Filme where
  id : Nat
  titulo : String
deriving DecidableEq, Repr

/-- Tags for the remote clients a handler may invoke, in invocation order.
`supabase.auth.getSession()` (the local session check) is not a remote
data/auth-credential/sheet client and is modelled by the boolean session
parameters instead. -/
inductive RemoteCall where
  | dbSelectFilmes
  | dbSelectAssistido
  | dbDeleteAssistido
  | dbInsertAssistido
  | authSignUp
  | authSignIn
  | authSetSession
  | sheetAppend
deriving DecidableEq, Repr

/-- An HTTP response consisting of a status and the JSON `message` field;
`res.json(x)` without an explicit status is status 200. -/
structure Resp where
  status : Nat
  message : String
deriving DecidableEq, Repr

/-- Response of the auth routes: status, `message`, and the relayed
provider `data` payload (present only on success). -/
structure AuthResp where
  status : Nat
  message : String
  data : Option String
deriving DecidableEq, Repr

/-- Body of a movie-list response: either the relayed list of records or
an error `message`. -/
inductive MoviesBody where
  | movies : List Filme → MoviesBody
  | msg : String → MoviesBody
deriving DecidableEq, Repr

/-- Response of the movie-list routes. -/
structure MoviesResp where
  status : Nat
  body : MoviesBody
deriving DecidableEq, Repr

/-- JavaScript truthiness of an optional numeric body field:
`undefined` and `0` are falsy. -/
def truthyNat : Option Nat → Bool
  | none => false
  | some n => !(n == 0)

/-- JavaScript truthiness of an optional string body field:
`undefined` and the empty string are falsy. -/
def truthyStr : Option String → Bool
  | none => false
  | some s => !(s == "")

/-- Outcomes of the three remote database calls the watched-mark toggle
can make; an `Except.error` carries the provider's error detail string. -/
structure Oracle where
  check : Except String Unit
  del : Except String Unit
  ins : Except String Unit

/-- The all-success oracle. -/
def okOracle : Oracle := ⟨.ok (), .ok (), .ok ()⟩

/-- The existence-check filter of `toggleWatchedMovie`:
`.eq('filme_id', movie_id).eq('user_id', user_uuid)`. -/
def matchesPair (movie_id : Nat) (user_uuid : Option String) (r : Row) : Bool :=
  r.filme_id == movie_id && r.user_id == user_uuid

/-- `toggleWatchedMovie(res, user_uuid, movie_id)` from `app.js`:
re-checks the session; on a live session it selects the watched-mark rows
for the (movie, user) pair, then either deletes the row whose `id` is
that of the first selected row (responding "removed") or inserts
`{filme_id, user_id}` with a database-assigned fresh key `newId`
(responding "added"). Each remote failure maps to its fixed 500 message.
If the session re-check fails the function falls through without sending
any response (`none`). Returns (response sent, resulting `assistido`
table, remote calls made). -/
def toggleWatchedMovie (authAtToggle : Bool) (oracle : Oracle) (newId : Nat)
    (db : List Row) (user_uuid : Option String) (movie_id : Nat) :
    Option Resp × List Row × List RemoteCall :=
  if authAtToggle then
    match oracle.check with
    | .error _ =>
        (some ⟨500, "Failed to check watched status"⟩, db, [.dbSelectAssistido])
    | .ok _ =>
        match db.filter (matchesPair movie_id user_uuid) with
        | first :: _ =>
            match oracle.del with
            | .error _ =>
                (some ⟨500, "Failed to remove movie from watched list"⟩, db,
                 [.dbSelectAssistido, .dbDeleteAssistido])
            | .ok _ =>
                (some ⟨200, "Movie removed from watched list successfully"⟩,
                 db.filter (fun r => !(r.id == first.id)),
                 [.dbSelectAssistido, .dbDeleteAssistido])
        | [] =>
            match oracle.ins with
            | .error _ =>
                (some ⟨500, "Failed to mark movie as watched"⟩, db,
                 [.dbSelectAssistido, .dbInsertAssistido])
            | .ok _ =>
                (some ⟨200, "Movie marked as watched successfully"⟩,
                 db ++ [⟨newId, movie_id, user_uuid⟩],
                 [.dbSelectAssistido, .dbInsertAssistido])
  else (none, db, [])

/-- The `POST /movies/watched/` handler from `app.js`: checks the session
(401 when absent), validates only `movie_id` (400 when falsy; `user_uuid`
is never validated), then delegates to `toggleWatchedMovie`. -/
def watchedRoute (authAtRoute authAtToggle : Bool) (oracle : Oracle) (newId : Nat)
    (db : List Row) (user_uuid : Option String) (movie_id : Option Nat) :
    Option Resp × List Row × List RemoteCall :=
  if authAtRoute then
    if !(truthyNat movie_id) then
      (some ⟨400, "Missing movie ID"⟩, db, [])
    else
      toggleWatchedMovie authAtToggle oracle newId db user_uuid (movie_id.getD 0)
  else (some ⟨401, "User not authorized"⟩, db, [])

/-- The `POST /auth/register/` handler: 400 on a falsy email or password
before any remote call; otherwise `supabase.auth.signUp`, whose failure is
answered 500 with a fixed message. -/
def registerRoute (email password : Option String) (remote : Except String Unit) :
    Resp × List RemoteCall :=
  if !(truthyStr email) || !(truthyStr password) then
    (⟨400, "Missing email or password"⟩, [])
  else
    match remote with
    | .error _ => (⟨500, "Signup failed"⟩, [.authSignUp])
    | .ok _ => (⟨200, "Signup successful"⟩, [.authSignUp])

/-- The `POST /auth/login/` handler: 400 on a falsy email or password
before any remote call; otherwise `supabase.auth.signInWithPassword`,
whose failure is answered 401 with a fixed message; on success the
provider payload is relayed as `data`. -/
def loginRoute (email password : Option String) (remote : Except String String) :
    AuthResp × List RemoteCall :=
  if !(truthyStr email) || !(truthyStr password) then
    (⟨400, "Missing email or password", none⟩, [])
  else
    match remote with
    | .error _ => (⟨401, "Invalid email or password", none⟩, [.authSignIn])
    | .ok d => (⟨200, "Login successful", some d⟩, [.authSignIn])

/-- The `POST /auth/refresh/` handler: 400 on a falsy refresh token before
any remote call; otherwise `supabase.auth.setSession`, whose failure is
answered 401 with a fixed message; on success the provider payload is
relayed as `data`. The optional access token is forwarded unchecked. -/
def refreshRoute (access_token refresh_token : Option String)
    (remote : Except String String) : AuthResp × List RemoteCall :=
  if !(truthyStr refresh_token) then
    (⟨400, "Missing refresh token", none⟩, [])
  else
    match access_token, remote with
    | _, .error _ => (⟨401, "Invalid refresh token", none⟩, [.authSetSession])
    | _, .ok d => (⟨200, "Access token refreshed successfully", some d⟩, [.authSetSession])

/-- The `GET /movies/` handler (`getMovies`): session check (401 when
absent), then a select over `filmes`, relayed on success, answered 500
with a fixed message on failure. The parameter `table` is the remote
table's contents. -/
def moviesRoute (isAuth : Bool) (table : List Filme) (remote : Except String Unit) :
    MoviesResp × List RemoteCall :=
  if isAuth then
    match remote with
    | .error _ => (⟨500, .msg "Failed to retrieve movies"⟩, [.dbSelectFilmes])
    | .ok _ => (⟨200, .movies table⟩, [.dbSelectFilmes])
  else (⟨401, .msg "User not authorized"⟩, [])

/-- ASCII lower-casing of one character (the case folding relevant to the
`ilike` pattern semantics). -/
def lowerChar (c : Char) : Char :=
  if 65 ≤ c.toNat && c.toNat ≤ 90 then Char.ofNat (c.toNat + 32) else c

/-- Lower-casing of a character list. -/
def lowerList (l : List Char) : List Char := l.map lowerChar

/-- Modelled from the spec: the managed database's `ilike '%pat%'`
operator, which the spec describes as a case-insensitive substring match.
The database itself is an external collaborator, not code of this
repository. -/
def ilikeContains (titulo pat : String) : Bool :=
  decide (lowerList pat.toList <:+: lowerList titulo.toList)

/-- The `GET /movies/title/` handler: session check (401 when absent),
400 on a falsy `title` query parameter before any remote call, then a
select over `filmes` filtered by `ilike('titulo', '%title%')`, relayed on
success, answered 500 with a fixed message on failure. -/
def titleRoute (isAuth : Bool) (title : Option String) (table : List Filme)
    (remote : Except String Unit) : MoviesResp × List RemoteCall :=
  if isAuth then
    if !(truthyStr title) then
      (⟨400, .msg "Missing title parameter"⟩, [])
    else
      match remote with
      | .error _ => (⟨500, .msg "Failed to retrieve movies"⟩, [.dbSelectFilmes])
      | .ok _ =>
          (⟨200, .movies (table.filter (fun f => ilikeContains f.titulo (title.getD "")))⟩,
           [.dbSelectFilmes])
  else (⟨401, .msg "User not authorized"⟩, [])

/-- The `POST /movies/suggest/` handler: session check (401 when absent),
then — with no validation of `titulo` or `usuario` — the spreadsheet
append, answered 200 on success and 500 with a fixed message on failure.
The suggested values are forwarded to the sheet client even when absent. -/
def suggestRoute (isAuth : Bool) (titulo usuario : Option String)
    (remote : Except String Unit) : Resp × List RemoteCall :=
  if isAuth then
    match titulo, usuario, remote with
    | _, _, .ok _ => (⟨200, "Movie suggestion added successfully!"⟩, [.sheetAppend])
    | _, _, .error _ => (⟨500, "Error adding suggestion!"⟩, [.sheetAppend])
  else (⟨401, "User not authorized"⟩, [])

/-- The at-most-one-watched-mark invariant: for every (movie, user) pair,
at most one row of the `assistido` table matches it. -/
def atMostOne (db : List Row) : Prop :=
  ∀ m u, (db.filter (matchesPair m u)).length ≤ 1

example : toggleWatchedMovie true okOracle 7 [] (some "u") 3 =
    (some ⟨200, "Movie marked as watched successfully"⟩,
     [⟨7, 3, some "u"⟩], [.dbSelectAssistido, .dbInsertAssistido]) := by decide

example : toggleWatchedMovie true okOracle 9 [⟨7, 3, some "u"⟩] (some "u") 3 =
    (some ⟨200, "Movie removed from watched list successfully"⟩,
     [], [.dbSelectAssistido, .dbDeleteAssistido]) := by decide

example : ilikeContains "The Matrix Reloaded" "matrix" = true := by decide

example : ilikeContains "Dune" "Matrix" = false := by decide

/-- Helper: an element of the list failing the filter predicate makes the
filtered list strictly shorter. -/
theorem filter_length_lt_of_mem {α : Type} {l : List α} {p : α → Bool} {a : α}
    (ha : a ∈ l) (hp : p a = false) : (l.filter p).length < l.length := by
  rw [List.length_filter_lt_length_iff_exists]
  exact ⟨a, ha, by simp [hp]⟩

/-- C1: for a POST /movies/watched request with an authenticated session
and a present movie identifier, the handler first runs the existence
check; when at least one matching row exists it deletes a row (the table
strictly shrinks) and responds 200 "removed", and when none exists it
inserts one row {filme_id, user_id} and responds 200 "added". -/
theorem watched_toggle_spec (db : List Row) (u : Option String) (m newId : Nat)
    (hm : m ≠ 0) :
    (db.filter (matchesPair m u) = [] →
       watchedRoute true true okOracle newId db u (some m) =
         (some ⟨200, "Movie marked as watched successfully"⟩,
          db ++ [⟨newId, m, u⟩],
          [.dbSelectAssistido, .dbInsertAssistido])) ∧
    (∀ first rest, db.filter (matchesPair m u) = first :: rest →
       watchedRoute true true okOracle newId db u (some m) =
         (some ⟨200, "Movie removed from watched list successfully"⟩,
          db.filter (fun r => !(r.id == first.id)),
          [.dbSelectAssistido, .dbDeleteAssistido]) ∧
       (db.filter (fun r => !(r.id == first.id))).length < db.length) := by
  constructor
  · intro hempty
    simp [watchedRoute, truthyNat, hm, toggleWatchedMovie, okOracle, hempty]
  · intro first rest hcons
    have hfirst : first ∈ db := by
      have : first ∈ db.filter (matchesPair m u) := by
        rw [hcons]; exact List.mem_cons_self _ _
      exact List.mem_of_mem_filter this
    refine ⟨?_, ?_⟩
    · simp [watchedRoute, truthyNat, hm, toggleWatchedMovie, okOracle, hcons]
    · exact filter_length_lt_of_mem hfirst (by simp)

/-- Witness for C1 at a concrete input. -/
theorem watched_toggle_spec_witness :
    (3 : Nat) ≠ 0 ∧
    watchedRoute true true okOracle 7 [] (some "u") (some 3) =
      (some ⟨200, "Movie marked as watched successfully"⟩,
       [⟨7, 3, some "u"⟩], [.dbSelectAssistido, .dbInsertAssistido]) :=
  ⟨by decide, (watched_toggle_spec [] (some "u") 3 7 (by decide)).1 (by decide)⟩

/-- C8: if the session re-check inside toggleWatchedMovie fails (the
session disappeared between the route handler's check and the toggle's
own check), the server sends no response at all for that POST
/movies/watched request, and no remote call is made. -/
theorem watched_no_response_on_vanished_session
    (oracle : Oracle) (newId : Nat) (db : List Row) (u : Option String)
    (movie_id : Option Nat) (hm : truthyNat movie_id = true) :
    watchedRoute true false oracle newId db u movie_id = (none, db, []) := by
  simp [watchedRoute, hm, toggleWatchedMovie]

/-- Witness for C8 at a concrete input. -/
theorem watched_no_response_on_vanished_session_witness :
    truthyNat (some 3) = true ∧
    watchedRoute true false okOracle 7 [] (some "u") (some 3) = (none, [], []) :=
  ⟨by decide,
   watched_no_response_on_vanished_session okOracle 7 [] (some "u") (some 3) (by decide)⟩

/-- C9: POST /movies/watched never validates user_uuid: with movie_id
present but user_uuid absent, validation passes — the response is never
the 400 validation answer — the existence check is queried with the
undefined user identifier, and on an empty match the insert stores a row
whose user identifier is undefined. -/
theorem watched_skips_user_validation (m newId : Nat) (db : List Row) (hm : m ≠ 0) :
    (∀ s, (watchedRoute true true okOracle newId db none (some m)).1 = some s →
       s.status ≠ 400) ∧
    RemoteCall.dbSelectAssistido ∈ (watchedRoute true true okOracle newId db none (some m)).2.2 ∧
    (db.filter (matchesPair m none) = [] →
       (watchedRoute true true okOracle newId db none (some m)).2.1 =
         db ++ [⟨newId, m, none⟩]) := by
  have hroute : watchedRoute true true okOracle newId db none (some m) =
      toggleWatchedMovie true okOracle newId db none m := by
    simp [watchedRoute, truthyNat, hm]
  refine ⟨?_, ?_, ?_⟩
  · intro s hs
    rw [hroute] at hs
    simp only [toggleWatchedMovie, okOracle, if_true] at hs
    rcases hfilter : db.filter (matchesPair m none) with _ | ⟨first, rest⟩ <;>
      simp [hfilter] at hs <;> simp [← hs]
  · rw [hroute]
    simp only [toggleWatchedMovie, okOracle, if_true]
    rcases hfilter : db.filter (matchesPair m none) with _ | ⟨first, rest⟩ <;>
      simp [hfilter]
  · intro hempty
    rw [hroute]
    simp [toggleWatchedMovie, okOracle, hempty]

/-- Witness for C9 at a concrete input. -/
theorem watched_skips_user_validation_witness :
    (3 : Nat) ≠ 0 ∧
    (∀ s, (watchedRoute true true okOracle 7 [] none (some 3)).1 = some s →
       s.status ≠ 400) ∧
    RemoteCall.dbSelectAssistido ∈ (watchedRoute true true okOracle 7 [] none (some 3)).2.2 ∧
    (([] : List Row).filter (matchesPair 3 none) = [] →
       (watchedRoute true true okOracle 7 [] none (some 3)).2.1 = [] ++ [⟨7, 3, none⟩]) :=
  ⟨by decide, watched_skips_user_validation 3 7 [] (by decide)⟩

/-- C3: starting from a state with no watched-mark for the pair, toggling
twice in sequence (all remote calls succeeding) answers "added" then
"removed", and the final table has no watched-mark for the pair — indeed
it is the initial table again. -/
theorem toggle_twice_round_trip (db : List Row) (u : Option String) (m newId : Nat)
    (hm : m ≠ 0)
    (hempty : db.filter (matchesPair m u) = [])
    (hfresh : ∀ r ∈ db, r.id ≠ newId) :
    (watchedRoute true true okOracle newId db u (some m)).1 =
      some ⟨200, "Movie marked as watched successfully"⟩ ∧
    (watchedRoute true true okOracle newId
        (watchedRoute true true okOracle newId db u (some m)).2.1 u (some m)).1 =
      some ⟨200, "Movie removed from watched list successfully"⟩ ∧
    (watchedRoute true true okOracle newId
        (watchedRoute true true okOracle newId db u (some m)).2.1 u (some m)).2.1 = db ∧
    ((watchedRoute true true okOracle newId
        (watchedRoute true true okOracle newId db u (some m)).2.1 u (some m)).2.1).filter
      (matchesPair m u) = [] := by
  have hstep1 : watchedRoute true true okOracle newId db u (some m) =
      (some ⟨200, "Movie marked as watched successfully"⟩,
       db ++ [⟨newId, m, u⟩], [.dbSelectAssistido, .dbInsertAssistido]) := by
    simp [watchedRoute, truthyNat, hm, toggleWatchedMovie, okOracle, hempty]
  have h1 : db.filter (fun r => !(r.id == newId)) = db :=
    List.filter_eq_self.mpr (fun r hr => by simp [hfresh r hr])
  have hstep2 : watchedRoute true true okOracle newId
      (db ++ [(⟨newId, m, u⟩ : Row)]) u (some m) =
      (some ⟨200, "Movie removed from watched list successfully"⟩,
       db, [.dbSelectAssistido, .dbDeleteAssistido]) := by
    simp [watchedRoute, truthyNat, hm, toggleWatchedMovie, okOracle, hempty,
      matchesPair, h1]
  rw [hstep1]
  simp [hstep2, hempty]

/-- Witness for C3 at a concrete input. -/
theorem toggle_twice_round_trip_witness :
    ((3 : Nat) ≠ 0 ∧
     ([⟨1, 4, some "v"⟩] : List Row).filter (matchesPair 3 (some "u")) = [] ∧
     ∀ r ∈ ([⟨1, 4, some "v"⟩] : List Row), r.id ≠ 7) ∧
    (watchedRoute true true okOracle 7 [⟨1, 4, some "v"⟩] (some "u") (some 3)).1 =
      some ⟨200, "Movie marked as watched successfully"⟩ ∧
    (watchedRoute true true okOracle 7
        (watchedRoute true true okOracle 7 [⟨1, 4, some "v"⟩] (some "u") (some 3)).2.1
        (some "u") (some 3)).1 =
      some ⟨200, "Movie removed from watched list successfully"⟩ :=
  have h := toggle_twice_round_trip [⟨1, 4, some "v"⟩] (some "u") 3 7
    (by decide) (by decide) (by decide)
  ⟨⟨by decide, by decide, by decide⟩, h.1, h.2.1⟩

/-- Helper: the at-most-one invariant survives any row deletion
(filtering is a sublist, so per-pair counts cannot grow). -/
theorem atMostOne_of_filter (db : List Row) (p : Row → Bool) (hinv : atMostOne db) :
    atMostOne (db.filter p) := by
  intro m u
  have hsub : List.Sublist ((db.filter p).filter (matchesPair m u))
      (db.filter (matchesPair m u)) :=
    List.Sublist.filter _ (List.filter_sublist db)
  exact le_trans hsub.length_le (hinv m u)

/-- Helper: inserting the row for a pair that currently has no matching
row preserves the at-most-one invariant. -/
theorem atMostOne_of_insert (db : List Row) (m0 : Nat) (u0 : Option String)
    (newId : Nat) (hempty : db.filter (matchesPair m0 u0) = [])
    (hinv : atMostOne db) :
    atMostOne (db ++ [⟨newId, m0, u0⟩]) := by
  intro m u
  rw [List.filter_append]
  by_cases hmu : matchesPair m u ⟨newId, m0, u0⟩ = true
  · have hpair : m0 = m ∧ u0 = u := by
      simpa [matchesPair] using hmu
    have hdb : db.filter (matchesPair m u) = [] := by
      rw [← hpair.1, ← hpair.2]; exact hempty
    simp [hdb, hmu]
  · simp only [Bool.not_eq_true] at hmu
    simp [hmu]
    exact hinv m u

/-- C2: under sequential execution, a single POST /movies/watched request
— whatever the session state, remote outcomes, and request fields —
preserves the invariant that at most one watched-mark row exists per
(user, movie) pair. -/
theorem toggle_preserves_at_most_one
    (a1 a2 : Bool) (oracle : Oracle) (newId : Nat) (db : List Row)
    (u : Option String) (movie_id : Option Nat)
    (hinv : atMostOne db) :
    atMostOne (watchedRoute a1 a2 oracle newId db u movie_id).2.1 := by
  unfold watchedRoute
  rcases a1 with _ | _
  · simpa using hinv
  · simp only [if_true]
    by_cases hval : (!(truthyNat movie_id)) = true
    · simpa [hval] using hinv
    · simp only [Bool.not_eq_true] at hval
      simp only [hval, Bool.false_eq_true, if_false]
      unfold toggleWatchedMovie
      rcases a2 with _ | _
      · simpa using hinv
      · simp only [if_true]
        rcases hcheck : oracle.check with e | v
        · simpa using hinv
        · rcases hfilter : db.filter (matchesPair (movie_id.getD 0) u) with _ | ⟨first, rest⟩
          · rcases hins : oracle.ins with e | v
            · simpa using hinv
            · simpa using atMostOne_of_insert db (movie_id.getD 0) u newId hfilter hinv
          · rcases hdel : oracle.del with e | v
            · simpa using hinv
            · simpa using atMostOne_of_filter db _ hinv

/-- Witness for C2 at a concrete input. -/
theorem toggle_preserves_at_most_one_witness :
    atMostOne [] ∧
    atMostOne (watchedRoute true true okOracle 7 [] (some "u") (some 3)).2.1 :=
  have h0 : atMostOne [] := fun m u => by simp
  ⟨h0, toggle_preserves_at_most_one true true okOracle 7 [] (some "u") (some 3) h0⟩

/-- Helper: a duplicate-free list whose members all equal one of its
elements is the singleton of that element. -/
theorem eq_singleton_of_nodup (l : List Row) (a : Row) (hl : l.Nodup) (ha : a ∈ l)
    (hall : ∀ x ∈ l, x = a) : l = [a] := by
  cases l with
  | nil => cases ha
  | cons x t =>
    have hx : x = a := hall x (List.mem_cons_self x t)
    subst hx
    have ht : t = [] := by
      by_contra hne
      rcases List.exists_mem_of_ne_nil t hne with ⟨y, hy⟩
      have hya : y = x := hall y (List.mem_cons_of_mem x hy)
      subst hya
      exact (List.nodup_cons.mp hl).1 hy
    rw [ht]

/-- C10: when one or more watched-mark rows exist for the pair (in
particular in a post-race state with several), a single successful toggle
answers "removed" and deletes exactly one row — the one whose id is that
of the first row of the existence-check result — leaving every other row
of the table in place (database ids assumed unique, as primary keys). -/
theorem toggle_post_race_deletes_one (db : List Row) (u : Option String)
    (m newId : Nat) (first : Row) (rest : List Row)
    (hmatch : db.filter (matchesPair m u) = first :: rest)
    (hnodup : (db.map Row.id).Nodup) :
    (toggleWatchedMovie true okOracle newId db u m).1 =
      some ⟨200, "Movie removed from watched list successfully"⟩ ∧
    (toggleWatchedMovie true okOracle newId db u m).2.1 =
      db.filter (fun r => !(r.id == first.id)) ∧
    (toggleWatchedMovie true okOracle newId db u m).2.1.length + 1 = db.length ∧
    (∀ r ∈ db, r.id ≠ first.id →
      r ∈ (toggleWatchedMovie true okOracle newId db u m).2.1) ∧
    first ∉ (toggleWatchedMovie true okOracle newId db u m).2.1 := by
  have htoggle : toggleWatchedMovie true okOracle newId db u m =
      (some ⟨200, "Movie removed from watched list successfully"⟩,
       db.filter (fun r => !(r.id == first.id)),
       [.dbSelectAssistido, .dbDeleteAssistido]) := by
    simp [toggleWatchedMovie, okOracle, hmatch]
  have hfirst_mem : first ∈ db := List.mem_of_mem_filter
    (by rw [hmatch]; exact List.mem_cons_self _ _)
  have hfilterP : db.filter (fun r => r.id == first.id) = [first] := by
    apply eq_singleton_of_nodup
    · exact List.Nodup.sublist (List.filter_sublist db) (List.Nodup.of_map _ hnodup)
    · exact List.mem_filter.mpr ⟨hfirst_mem, by simp⟩
    · intro x hx
      have hx' := List.mem_filter.mp hx
      exact List.inj_on_of_nodup_map hnodup hx'.1 hfirst_mem (by simpa using hx'.2)
  have hlen : (db.filter (fun r => !(r.id == first.id))).length + 1 = db.length := by
    have h := List.length_eq_length_filter_add (l := db) (fun r => r.id == first.id)
    rw [hfilterP] at h
    simp only [List.length_singleton] at h
    omega
  rw [htoggle]
  refine ⟨rfl, rfl, hlen, ?_, ?_⟩
  · intro r hr hne
    exact List.mem_filter.mpr ⟨hr, by simp [hne]⟩
  · intro hmem
    have := (List.mem_filter.mp hmem).2
    simp at this

/-- Witness for C10 at a concrete input with two rows for the pair. -/
theorem toggle_post_race_deletes_one_witness :
    ([⟨1, 3, some "u"⟩, ⟨2, 3, some "u"⟩] : List Row).filter
      (matchesPair 3 (some "u")) = [⟨1, 3, some "u"⟩, ⟨2, 3, some "u"⟩] ∧
    (([⟨1, 3, some "u"⟩, ⟨2, 3, some "u"⟩] : List Row).map Row.id).Nodup ∧
    (toggleWatchedMovie true okOracle 7
        [⟨1, 3, some "u"⟩, ⟨2, 3, some "u"⟩] (some "u") 3).1 =
      some ⟨200, "Movie removed from watched list successfully"⟩ ∧
    (toggleWatchedMovie true okOracle 7
        [⟨1, 3, some "u"⟩, ⟨2, 3, some "u"⟩] (some "u") 3).2.1.length + 1 = 2 :=
  have h := toggle_post_race_deletes_one
    [⟨1, 3, some "u"⟩, ⟨2, 3, some "u"⟩] (some "u") 3 7
    ⟨1, 3, some "u"⟩ [⟨2, 3, some "u"⟩] (by decide) (by decide)
  ⟨by decide, by decide, h.1, h.2.2.1⟩

/-- C5: each remote failure mode of the watched-mark toggle maps to its
own fixed 500 message — check failure to the check message (with no
delete or insert attempted and the store unchanged), delete failure to
the removal message, insert failure to the creation message — and a
missing (falsy) movie identifier maps to 400 with no remote call at all. -/
theorem toggle_failure_mode_mapping (db : List Row) (u : Option String)
    (m newId : Nat) :
    (∀ e del ins, toggleWatchedMovie true ⟨.error e, del, ins⟩ newId db u m =
       (some ⟨500, "Failed to check watched status"⟩, db, [.dbSelectAssistido])) ∧
    (∀ e ins first rest, db.filter (matchesPair m u) = first :: rest →
       toggleWatchedMovie true ⟨.ok (), .error e, ins⟩ newId db u m =
         (some ⟨500, "Failed to remove movie from watched list"⟩, db,
          [.dbSelectAssistido, .dbDeleteAssistido])) ∧
    (∀ e del, db.filter (matchesPair m u) = [] →
       toggleWatchedMovie true ⟨.ok (), del, .error e⟩ newId db u m =
         (some ⟨500, "Failed to mark movie as watched"⟩, db,
          [.dbSelectAssistido, .dbInsertAssistido])) ∧
    (∀ a2 oracle movie_id, truthyNat movie_id = false →
       watchedRoute true a2 oracle newId db u movie_id =
         (some ⟨400, "Missing movie ID"⟩, db, [])) := by
  refine ⟨?_, ?_, ?_, ?_⟩
  · intro e del ins
    simp [toggleWatchedMovie]
  · intro e ins first rest hmatch
    simp [toggleWatchedMovie, hmatch]
  · intro e del hempty
    simp [toggleWatchedMovie, hempty]
  · intro a2 oracle movie_id hval
    simp [watchedRoute, hval]

/-- Witness for C5 at concrete inputs. -/
theorem toggle_failure_mode_mapping_witness :
    toggleWatchedMovie true ⟨.error "boom", .ok (), .ok ()⟩ 7 [] (some "u") 3 =
      (some ⟨500, "Failed to check watched status"⟩, [], [.dbSelectAssistido]) ∧
    (([⟨1, 3, some "u"⟩] : List Row).filter (matchesPair 3 (some "u")) =
       [⟨1, 3, some "u"⟩] ∧
     toggleWatchedMovie true ⟨.ok (), .error "boom", .ok ()⟩ 7
         [⟨1, 3, some "u"⟩] (some "u") 3 =
       (some ⟨500, "Failed to remove movie from watched list"⟩, [⟨1, 3, some "u"⟩],
        [.dbSelectAssistido, .dbDeleteAssistido])) ∧
    (([] : List Row).filter (matchesPair 3 (some "u")) = [] ∧
     toggleWatchedMovie true ⟨.ok (), .ok (), .error "boom"⟩ 7 [] (some "u") 3 =
       (some ⟨500, "Failed to mark movie as watched"⟩, [],
        [.dbSelectAssistido, .dbInsertAssistido])) ∧
    (truthyNat none = false ∧
     watchedRoute true true okOracle 7 [] (some "u") none =
       (some ⟨400, "Missing movie ID"⟩, [], [])) :=
  have h := toggle_failure_mode_mapping [] (some "u") 3 7
  have h1 := toggle_failure_mode_mapping [⟨1, 3, some "u"⟩] (some "u") 3 7
  ⟨h.1 "boom" (.ok ()) (.ok ()),
   ⟨by decide, h1.2.1 "boom" (.ok ()) ⟨1, 3, some "u"⟩ [] (by decide)⟩,
   ⟨by decide, h.2.2.1 "boom" (.ok ()) (by decide)⟩,
   ⟨by decide, h.2.2.2 true okOracle none (by decide)⟩⟩

/-- C4 counterexample: two concrete requests refute the claim as stated.
A POST /movies/suggest request with both titulo and usuario absent
(authenticated session, sheet call succeeding) is not answered 400, and
the spreadsheet-append client is invoked; and an unauthenticated GET
/movies/title request missing title, like an unauthenticated POST
/movies/watched request missing movie_id, is answered 401, not 400. -/
theorem missing_field_claim_counterexample :
    ((suggestRoute true none none (.ok ())).1.status ≠ 400 ∧
     RemoteCall.sheetAppend ∈ (suggestRoute true none none (.ok ())).2) ∧
    (titleRoute false none [] (.ok ())).1.status = 401 ∧
    watchedRoute false true okOracle 7 [] none none =
      (some ⟨401, "User not authorized"⟩, [], []) := by
  decide

/-- C4 (amended): for register, login and refresh, a request missing a
required field is answered 400 with its fixed message and no remote
database/auth/sheet client is invoked; for the title search and the
watched toggle the session check precedes validation, so an
unauthenticated request missing the field is answered 401 with no remote
client invoked, while once the session check passes a missing field is
answered 400 with no remote client invoked; the suggest route performs
no field validation at all and always invokes the sheet client once the
session check passes. -/
theorem missing_field_yields_400_without_remote_calls :
    (∀ e p r, truthyStr e = false ∨ truthyStr p = false →
       registerRoute e p r = (⟨400, "Missing email or password"⟩, [])) ∧
    (∀ e p r, truthyStr e = false ∨ truthyStr p = false →
       loginRoute e p r = (⟨400, "Missing email or password", none⟩, [])) ∧
    (∀ a rt r, truthyStr rt = false →
       refreshRoute a rt r = (⟨400, "Missing refresh token", none⟩, [])) ∧
    (∀ t table r, truthyStr t = false →
       titleRoute true t table r = (⟨400, .msg "Missing title parameter"⟩, [])) ∧
    (∀ a2 oracle newId db u mid, truthyNat mid = false →
       watchedRoute true a2 oracle newId db u mid =
         (some ⟨400, "Missing movie ID"⟩, db, [])) ∧
    (∀ t usr r, (suggestRoute true t usr r).2 = [RemoteCall.sheetAppend]) ∧
    (∀ t table r, titleRoute false t table r =
       (⟨401, .msg "User not authorized"⟩, [])) ∧
    (∀ a2 oracle newId db u mid, watchedRoute false a2 oracle newId db u mid =
       (some ⟨401, "User not authorized"⟩, db, [])) := by
  refine ⟨?_, ?_, ?_, ?_, ?_, ?_, ?_, ?_⟩
  · rintro e p r (h | h) <;> simp [registerRoute, h]
  · rintro e p r (h | h) <;> simp [loginRoute, h]
  · intro a rt r h
    simp [refreshRoute, h]
  · intro t table r h
    simp [titleRoute, h]
  · intro a2 oracle newId db u mid h
    simp [watchedRoute, h]
  · intro t usr r
    rcases r with e | v <;> simp [suggestRoute]
  · intro t table r
    simp [titleRoute]
  · intro a2 oracle newId db u mid
    simp [watchedRoute]

/-- Witness for the amended C4 at concrete inputs. -/
theorem missing_field_yields_400_without_remote_calls_witness :
    (truthyStr none = false ∨ truthyStr (some "pw") = false) ∧
    registerRoute none (some "pw") (.ok ()) =
      (⟨400, "Missing email or password"⟩, []) ∧
    loginRoute (some "a\x40b.c") none (.ok "tok") =
      (⟨400, "Missing email or password", none⟩, []) ∧
    refreshRoute none none (.ok "tok") =
      (⟨400, "Missing refresh token", none⟩, []) ∧
    titleRoute true none [] (.ok ()) =
      (⟨400, .msg "Missing title parameter"⟩, []) ∧
    watchedRoute true true okOracle 7 [] (some "u") none =
      (some ⟨400, "Missing movie ID"⟩, [], []) ∧
    (suggestRoute true none none (.ok ())).2 = [RemoteCall.sheetAppend] ∧
    titleRoute false none [] (.ok ()) = (⟨401, .msg "User not authorized"⟩, []) ∧
    watchedRoute false true okOracle 7 [] (some "u") none =
      (some ⟨401, "User not authorized"⟩, [], []) :=
  have h := missing_field_yields_400_without_remote_calls
  ⟨Or.inl (by decide),
   h.1 none (some "pw") (.ok ()) (Or.inl (by decide)),
   h.2.1 (some "a\x40b.c") none (.ok "tok") (Or.inr (by decide)),
   h.2.2.1 none none (.ok "tok") (by decide),
   h.2.2.2.1 none [] (.ok ()) (by decide),
   h.2.2.2.2.1 true okOracle 7 [] (some "u") none (by decide),
   h.2.2.2.2.2.1 none none (.ok ()),
   h.2.2.2.2.2.2.1 none [] (.ok ()),
   h.2.2.2.2.2.2.2 true okOracle 7 [] (some "u") none⟩

/-- C6: a GET /movies/title request with an authenticated session and a
present title parameter is answered 200 with exactly the records whose
title contains the query as a case-insensitive substring; with a missing
title parameter it is answered 400 with no database query. -/
theorem title_search_spec (title : String) (htitle : title ≠ "")
    (table : List Filme) :
    titleRoute true (some title) table (.ok ()) =
      (⟨200, .movies (table.filter (fun f => ilikeContains f.titulo title))⟩,
       [.dbSelectFilmes]) ∧
    (∀ f, f ∈ table.filter (fun f => ilikeContains f.titulo title) ↔
       f ∈ table ∧ lowerList title.toList <:+: lowerList f.titulo.toList) ∧
    (∀ t table2 rem, truthyStr t = false →
       titleRoute true t table2 rem =
         (⟨400, .msg "Missing title parameter"⟩, [])) := by
  refine ⟨?_, ?_, ?_⟩
  · simp [titleRoute, truthyStr, htitle]
  · intro f
    simp [List.mem_filter, ilikeContains]
  · intro t table2 rem h
    simp [titleRoute, h]

/-- Witness for C6: the seeded table holds one matching and one
non-matching title; the query "Matrix" returns exactly the match. -/
theorem title_search_spec_witness :
    ("Matrix" : String) ≠ "" ∧
    titleRoute true (some "Matrix")
        [⟨1, "The Matrix Reloaded"⟩, ⟨2, "Dune"⟩] (.ok ()) =
      (⟨200, .movies ([⟨1, "The Matrix Reloaded"⟩, ⟨2, "Dune"⟩].filter
          (fun f => ilikeContains f.titulo "Matrix"))⟩,
       [.dbSelectFilmes]) ∧
    ([⟨1, "The Matrix Reloaded"⟩, ⟨2, "Dune"⟩] : List Filme).filter
        (fun f => ilikeContains f.titulo "Matrix") = [⟨1, "The Matrix Reloaded"⟩] :=
  have h := title_search_spec "Matrix" (by decide)
    [⟨1, "The Matrix Reloaded"⟩, ⟨2, "Dune"⟩]
  ⟨by decide, h.1, by decide⟩

/-- C7: for every route, a remote-call failure is answered with a fixed
generic message that does not depend on the provider's error detail: two
runs differing only in the detail string produce identical responses, and
the status on the failure path is 500 (401 for the login and refresh
credential failures). -/
theorem remote_error_detail_never_leaks (d1 d2 : String) :
    (∀ e p, registerRoute e p (.error d1) = registerRoute e p (.error d2)) ∧
    (∀ e p, truthyStr e = true → truthyStr p = true →
       (registerRoute e p (.error d1)).1 = ⟨500, "Signup failed"⟩) ∧
    (∀ e p, loginRoute e p (.error d1) = loginRoute e p (.error d2)) ∧
    (∀ e p, truthyStr e = true → truthyStr p = true →
       (loginRoute e p (.error d1)).1 = ⟨401, "Invalid email or password", none⟩) ∧
    (∀ a rt, refreshRoute a rt (.error d1) = refreshRoute a rt (.error d2)) ∧
    (∀ a rt, truthyStr rt = true →
       (refreshRoute a rt (.error d1)).1 = ⟨401, "Invalid refresh token", none⟩) ∧
    (∀ auth table, moviesRoute auth table (.error d1) =
       moviesRoute auth table (.error d2)) ∧
    (∀ table, (moviesRoute true table (.error d1)).1 =
       ⟨500, .msg "Failed to retrieve movies"⟩) ∧
    (∀ auth t table, titleRoute auth t table (.error d1) =
       titleRoute auth t table (.error d2)) ∧
    (∀ t table, truthyStr t = true →
       (titleRoute true t table (.error d1)).1 =
         ⟨500, .msg "Failed to retrieve movies"⟩) ∧
    (∀ auth t usr, suggestRoute auth t usr (.error d1) =
       suggestRoute auth t usr (.error d2)) ∧
    (∀ t usr, (suggestRoute true t usr (.error d1)).1 =
       ⟨500, "Error adding suggestion!"⟩) ∧
    (∀ del ins newId db u m,
       toggleWatchedMovie true ⟨.error d1, del, ins⟩ newId db u m =
         toggleWatchedMovie true ⟨.error d2, del, ins⟩ newId db u m ∧
       (toggleWatchedMovie true ⟨.error d1, del, ins⟩ newId db u m).1 =
         some ⟨500, "Failed to check watched status"⟩) ∧
    (∀ ins newId db u m,
       toggleWatchedMovie true ⟨.ok (), .error d1, ins⟩ newId db u m =
         toggleWatchedMovie true ⟨.ok (), .error d2, ins⟩ newId db u m) ∧
    (∀ del newId db u m,
       toggleWatchedMovie true ⟨.ok (), del, .error d1⟩ newId db u m =
         toggleWatchedMovie true ⟨.ok (), del, .error d2⟩ newId db u m) := by
  refine ⟨?_, ?_, ?_, ?_, ?_, ?_, ?_, ?_, ?_, ?_, ?_, ?_, ?_, ?_, ?_⟩
  · intro e p
    unfold registerRoute
    split <;> rfl
  · intro e p he hp
    simp [registerRoute, he, hp]
  · intro e p
    unfold loginRoute
    split <;> rfl
  · intro e p he hp
    simp [loginRoute, he, hp]
  · intro a rt
    unfold refreshRoute
    split <;> rfl
  · intro a rt hrt
    simp [refreshRoute, hrt]
  · intro auth table
    rcases auth with _ | _ <;> rfl
  · intro table
    rfl
  · intro auth t table
    rcases auth with _ | _
    · rfl
    · unfold titleRoute
      split <;> rfl
  · intro t table ht
    simp [titleRoute, ht]
  · intro auth t usr
    rcases auth with _ | _ <;> rfl
  · intro t usr
    rfl
  · intro del ins newId db u m
    exact ⟨rfl, rfl⟩
  · intro ins newId db u m
    unfold toggleWatchedMovie
    rcases hfilter : db.filter (matchesPair m u) with _ | ⟨first, rest⟩ <;>
      simp [hfilter]
  · intro del newId db u m
    unfold toggleWatchedMovie
    rcases hfilter : db.filter (matchesPair m u) with _ | ⟨first, rest⟩ <;>
      simp [hfilter]

/-- Witness for C7 at concrete inputs: two provider error details, one
response. -/
theorem remote_error_detail_never_leaks_witness :
    registerRoute (some "a") (some "b") (.error "detail-one") =
      registerRoute (some "a") (some "b") (.error "detail-two") ∧
    (truthyStr (some "a") = true ∧ truthyStr (some "b") = true) ∧
    (loginRoute (some "a") (some "b") (.error "detail-one")).1 =
      ⟨401, "Invalid email or password", none⟩ ∧
    (refreshRoute none (some "rt") (.error "detail-one")).1 =
      ⟨401, "Invalid refresh token", none⟩ :=
  have h := remote_error_detail_never_leaks "detail-one" "detail-two"
  ⟨h.1 (some "a") (some "b"), ⟨by decide, by decide⟩,
   h.2.2.2.1 (some "a") (some "b") (by decide) (by decide),
   h.2.2.2.2.2.1 none (some "rt") (by decide)⟩
